import Mathlib

/-!
Verification of the pdf-qa-app backend (FastAPI + Azure Search RAG pipeline).

Shallow embedding of the Python code under src/backend/app.  Python dicts are
modelled as association lists, exceptions as Except, the external search index
and the completion model as oracle functions supplied in a QAEnv record.
Machine-checked statements are grouped at the end of the file, one per claim.
-/

namespace PdfQA

/-! ## Python calling convention

Python raises TypeError when a call supplies a keyword argument that the
callee does not declare.  `kwargsAccepted params kwargs` models the check the
interpreter performs at call time (beyond self, positional use does not occur
at the call sites modelled here). -/

def kwargsAccepted (params kwargs : List String) : Bool :=
  kwargs.all fun k => params.contains k

/-- Keyword parameters of AzureSearchService.create_langchain_retriever
(azure_search.py:205): only top_k.  There is no document_id parameter and the
function builds an unfiltered retriever over the whole index. -/
def createLangchainRetrieverParams : List String := ["top_k"]

/-- Keyword arguments passed at qa_chain.py:178 (answer_document_question) and
qa_chain.py:219 (generate_summary). -/
def documentScopedRetrieverKwargs : List String := ["top_k", "document_id"]

/-- Message of the TypeError raised by Python for the call at qa_chain.py:178. -/
def unexpectedKwargMsg : String :=
  "create_langchain_retriever() got an unexpected keyword argument \x27document_id\x27"

/-- Message of the TypeError raised by awaiting None (documents.py:55 awaits
the None returned by the synchronous upload_chunks). -/
def awaitNoneMsg : String :=
  "object NoneType can\x27t be used in \x27await\x27 expression"

/-! ## Retrieved documents and the context builder (qa_chain.py:37-46) -/

/-- A langchain Document as returned by the retriever: page text plus a
metadata dict (string-valued entries suffice for the fields this code reads). -/
structure RetrievedDoc where
  page_content : String
  metadata : List (String × String)
deriving DecidableEq, Repr

/-- Python dict.get with a default, for string-valued metadata dicts. -/
def metaGet (m : List (String × String)) (key default_ : String) : String :=
  match m.lookup key with
  | some v => v
  | none => default_

/-- Rendering of one retrieved document inside the list comprehension at
qa_chain.py:42-46: two adjacent f-strings produce one two-line block. -/
def renderDoc (doc : RetrievedDoc) : String :=
  "Document: " ++ metaGet doc.metadata "source" "unknown" ++ "\n" ++
    "Content: " ++ doc.page_content

/-- QAService.create_context (qa_chain.py:37-46).  `if not docs` is Python
truthiness on a list, i.e. emptiness; the join is str.join with a blank line. -/
def create_context (docs : List RetrievedDoc) : String :=
  if docs.isEmpty then "No relevant documents found."
  else String.intercalate "\n\n" (docs.map renderDoc)

/-- Modelled from the spec (§4.5, claim C6): the context builder keeps only
the top n highest-scoring results (n ≤ 3, configurable); results arrive
already ordered by descending score, so taking a prefix keeps the top n. -/
def contextSpecTopN (n : Nat) (docs : List RetrievedDoc) : String :=
  if docs.isEmpty then "No relevant documents found."
  else String.intercalate "\n\n" ((docs.take n).map renderDoc)

/-- Modelled from the spec as amended for claim C6: every result is kept, each
rendered block joined to the next by one blank line, written as a direct
recursion on the result list. -/
def contextSpecAll : List RetrievedDoc → String
  | [] => "No relevant documents found."
  | [d] => renderDoc d
  | d :: d2 :: rest => renderDoc d ++ "\n\n" ++ contextSpecAll (d2 :: rest)

/-! ## QA service (qa_chain.py) -/

/-- External collaborators of the QA service: the vector index's similarity
search (query and k to a ranked result list, no metadata filter exists in this
code path) and the completion model (prompt to answer text). -/
structure QAEnv where
  search : String → Nat → List RetrievedDoc
  llm : String → String

/-- AzureSearchService.create_langchain_retriever (azure_search.py:205-218):
the top_k argument is accepted but never used (as_retriever() is called with
no search_kwargs, so the langchain default k = 4 applies), and no filter of
any kind is configured. -/
def create_langchain_retriever (env : QAEnv) (top_k : Nat) : String → List RetrievedDoc :=
  fun query => env.search query 4

/-- Prompt assembly from the template at qa_chain.py:52-75; the fixed
instruction text surrounding the three slots is elided, keeping the slot
structure (history, question, context). -/
def qaPromptFormat (chat_history question context : String) : String :=
  "# Conversation History\n" ++ chat_history ++
    "\n# Current Question\n" ++ question ++
    "\n# Document Context\n" ++ context

/-- Sources in the returned shape of qa_chain.py:155: text plus metadata. -/
def sourcesOf (docs : List RetrievedDoc) : List (String × List (String × String)) :=
  docs.map fun d => (d.page_content, d.metadata)

/-- QAService.answer_question (qa_chain.py:123-163).  The retriever is built
with the single keyword top_k, which create_langchain_retriever accepts, so
the call succeeds; the chain retrieves, builds context, and invokes the model.
Conversation memory contributes the chat_history slot; its content is not
relevant to any claim and is modelled as empty. -/
def answer_question (env : QAEnv) (question : String) :
    String × List (String × List (String × String)) :=
  let retriever := create_langchain_retriever env 5
  let docs := retriever question
  let answer := env.llm (qaPromptFormat "" question (create_context docs))
  (answer, sourcesOf docs)

/-- QAService.answer_document_question (qa_chain.py:165-206).  The first
statement calls create_langchain_retriever with keywords top_k AND
document_id; the callee declares only top_k, so Python raises TypeError
before anything else runs, and the try/except at qa_chain.py:204-206 logs and
re-raises it.  The branch under the (never satisfied) acceptance test is the
rest of the method: an UNFILTERED retrieval — no document_id comparison
appears anywhere downstream either. -/
def answer_document_question (env : QAEnv) (question documentId : String) :
    Except String (String × List (String × List (String × String))) :=
  if kwargsAccepted createLangchainRetrieverParams documentScopedRetrieverKwargs then
    let docs := env.search question 4
    let answer := env.llm (qaPromptFormat "" question (create_context docs))
    .ok (answer, sourcesOf docs)
  else
    .error unexpectedKwargMsg

/-- QAService.generate_summary (qa_chain.py:208-261).  Same defective call as
answer_document_question (qa_chain.py:219, keywords top_k and document_id);
the TypeError is caught by the except at qa_chain.py:259-261, which returns a
fixed fallback string instead of raising. -/
def qa_generate_summary (env : QAEnv) (documentId : String) : String :=
  if kwargsAccepted createLangchainRetrieverParams documentScopedRetrieverKwargs then
    let docs := env.search "summarize" 4
    if docs.isEmpty then "Could not generate summary. No document content found."
    else env.llm (create_context docs)
  else
    "Could not generate summary due to an error."

/-! ## The ask route (api/routes/qa.py) -/

/-- Characters stripped by Python str.strip() with no argument (ASCII range;
the claims only concern ASCII whitespace). -/
def pyWhitespace : List Char := [' ', '\t', '\n', '\x0d', '\x0b', '\x0c']

/-- Python str.strip(): drop leading and trailing whitespace. -/
def pyStrip (s : String) : String :=
  ⟨((s.data.dropWhile pyWhitespace.contains).reverse.dropWhile
      pyWhitespace.contains).reverse⟩

/-- A Python exception as observed by the route handlers: either a fastapi
HTTPException (a subclass of Exception) or any other error. -/
inductive PyExc where
  | httpExc (status : Nat) (detail : String)
  | other (msg : String)
deriving DecidableEq, Repr

/-- str(e) as used in the handler's f-string; starlette's HTTPException
renders as status colon detail. -/
def strOfExc : PyExc → String
  | .httpExc status detail => Nat.repr status ++ ": " ++ detail
  | .other msg => msg

/-- Outcome of one request to POST /api/qa/ask: HTTP status, body text (the
answer on 200, the detail string on an error status), and whether any
retrieval call was made while handling the request. -/
structure RouteResult where
  status : Nat
  body : String
  retrievalPerformed : Bool
deriving DecidableEq, Repr

/-- Body of the try block in ask_question (qa.py:26-56): the emptiness check
raises HTTPException(400) before the QA service (and hence any retrieval) is
reached; otherwise the service runs.  The Bool records whether retrieval
happened. -/
def ask_question_body (env : QAEnv) (question : String) :
    Except PyExc (String × List (String × List (String × String))) × Bool :=
  if question = "" || pyStrip question = "" then
    (.error (.httpExc 400 "Question cannot be empty"), false)
  else
    let (answer, sources) := answer_question env question
    (.ok (answer, sources), true)

/-- ask_question (qa.py:20-59).  The except clause at qa.py:58-59 catches
every Exception — including the HTTPException(400) raised by the emptiness
check inside the try — and re-raises HTTPException(500) wrapping str(e). -/
def ask_question_route (env : QAEnv) (question : String) : RouteResult :=
  match ask_question_body env question with
  | (.ok (answer, _), r) => { status := 200, body := answer, retrievalPerformed := r }
  | (.error e, r) =>
      { status := 500, body := "Error answering question: " ++ strOfExc e,
        retrievalPerformed := r }

/-! ## Document processor (core/document_processor.py) -/

/-- langchain's TextSplitter constructor, the external dependency invoked by
DocumentProcessor.__init__ (document_processor.py:14-19); the repository code
performs no validation of its own.  The library raises ValueError exactly
when chunk_overlap exceeds chunk_size (a strict comparison). -/
structure RecursiveCharacterTextSplitter where
  chunk_size : Nat
  chunk_overlap : Nat
deriving DecidableEq, Repr

/-- Validation performed by the splitter constructor called at
document_processor.py:15-19 with settings.CHUNK_SIZE and
settings.CHUNK_OVERLAP (config.py:42-43, env-overridable, defaults 1000/200). -/
def textSplitterInit (chunk_size chunk_overlap : Nat) :
    Except String RecursiveCharacterTextSplitter :=
  if chunk_overlap > chunk_size then
    .error ("Got a larger chunk overlap (" ++ Nat.repr chunk_overlap ++
      ") than chunk size (" ++ Nat.repr chunk_size ++ "), should be smaller.")
  else
    .ok { chunk_size := chunk_size, chunk_overlap := chunk_overlap }

/-- DocumentProcessor.__init__ (document_processor.py:14-19): constructs the
splitter and nothing else, so construction fails exactly when the splitter
constructor raises. -/
def documentProcessorInit (chunk_size chunk_overlap : Nat) :
    Except String RecursiveCharacterTextSplitter :=
  textSplitterInit chunk_size chunk_overlap

/-- Per-chunk metadata dict built at document_processor.py:86-91 and 160-165
(both loops build the same literal dict). -/
structure ChunkMeta where
  source : String
  type : String
  document_id : String
  chunk_index : Nat
deriving DecidableEq, Repr

/-- One element of the chunk list returned by process_pdf / process_csv. -/
structure Chunk where
  id : String
  text : String
  metadata : ChunkMeta
deriving DecidableEq, Repr

/-- The enumerate loop shared verbatim by process_pdf (document_processor.py:
80-94) and process_csv (document_processor.py:154-168): position i in the
splitter output becomes id "{document_id}_chunk_{i}" with chunk_index i.  The
splitter output is the texts argument; docId is the uuid4 string stored in
metadata["id"]. -/
def mkChunk (docId source dtype : String) (i : Nat) (text : String) : Chunk :=
  { id := docId ++ "_chunk_" ++ Nat.repr i
  , text := text
  , metadata :=
      { source := source, type := dtype, document_id := docId, chunk_index := i } }

def mkChunks (docId source dtype : String) (texts : List String) : List Chunk :=
  texts.enum.map fun p => mkChunk docId source dtype p.1 p.2

/-- Document metadata as produced by process_pdf (title/author defaulted to
"Untitled"/"Unknown" when absent, document_processor.py:65-67) or process_csv
(rows and column list, document_processor.py:118-119).  process_file raises on
any other extension, so no further variant reaches summarize_document from
the upload path. -/
inductive DocMeta where
  | pdf (pages : Nat) (title author : String)
  | csv (rows : Nat) (columns : List String)
deriving DecidableEq, Repr

/-- Type tag stored in metadata["type"]. -/
def DocMeta.dtype : DocMeta → String
  | .pdf _ _ _ => "pdf"
  | .csv _ _ => "csv"

/-- DocumentProcessor.summarize_document (document_processor.py:170-214): the
metadata-based placeholder summary computed synchronously at upload time. -/
def summarize_document (meta : DocMeta) : String :=
  match meta with
  | .pdf pages title author =>
      let s := "This is a " ++ Nat.repr pages ++ "-page PDF document"
      let s := if title ≠ "Untitled" then s ++ " titled \x27" ++ title ++ "\x27" else s
      let s := if author ≠ "Unknown" then s ++ " by " ++ author else s
      s ++ "."
  | .csv rows columns =>
      "This is a CSV file with " ++ Nat.repr rows ++ " rows and " ++
        Nat.repr columns.length ++ " columns: " ++
        String.intercalate ", " columns ++ "."

/-! ## Documents route (api/routes/documents.py) -/

/-- One record of the in-memory documents_db dict (documents.py:129-138);
error_message is absent until a background failure writes it. -/
structure DocRecord where
  id : String
  filename : String
  type : String
  meta : DocMeta
  summary : String
  status : String
  error_message : Option String := none
deriving DecidableEq, Repr

/-- documents_db (documents.py:30), a dict keyed by document id. -/
abbrev DocsDb := List (String × DocRecord)

/-- dict assignment documents_db[id] = record / field update on the stored
record: replaces the entry when the key is present, appends otherwise. -/
def dbSet (db : DocsDb) (documentId : String) (rec : DocRecord) : DocsDb :=
  match db with
  | [] => [(documentId, rec)]
  | (k, r) :: rest =>
      if k = documentId then (k, rec) :: rest
      else (k, r) :: dbSet rest documentId rec

def dbLookup (db : DocsDb) (documentId : String) : Option DocRecord :=
  match db with
  | [] => none
  | (k, r) :: rest => if k = documentId then some r else dbLookup rest documentId

/-- The documents_db entry written by upload_documents on success
(documents.py:129-138): status starts as "processing" and the summary is the
synchronously computed placeholder. -/
def mkUploadRecord (documentId filename : String) (meta : DocMeta) : DocRecord :=
  { id := documentId
  , filename := filename
  , type := meta.dtype
  , meta := meta
  , summary := summarize_document meta
  , status := "processing"
  , error_message := none }

/-- The statement await azure_search_service.upload_chunks(chunks)
(documents.py:55).  upload_chunks (azure_search.py:129-176) is a plain
synchronous method: the call itself runs the upload (outcome given by the
uploadOutcome argument, error when the search backend rejects it) and
evaluates to None; awaiting None then raises TypeError.  The expression as a
whole therefore never completes normally. -/
def awaitUploadChunks (uploadOutcome : Except String Unit) : Except String Unit :=
  match uploadOutcome with
  | .error e => .error e
  | .ok _ => .error awaitNoneMsg

/-- update_document_status (documents.py:51-66), the background task queued
by upload_documents: set status "ready" after a completed upload, or "error"
plus the captured message when the try block raises.  Writes are guarded by
membership in documents_db. -/
def update_document_status (db : DocsDb) (documentId : String)
    (uploadOutcome : Except String Unit) : DocsDb :=
  match awaitUploadChunks uploadOutcome with
  | .ok _ =>
      match dbLookup db documentId with
      | some rec => dbSet db documentId { rec with status := "ready" }
      | none => db
  | .error e =>
      match dbLookup db documentId with
      | some rec =>
          dbSet db documentId { rec with status := "error", error_message := some e }
      | none => db

/-- get_document_summary (documents.py:256-274): 404 when the id is unknown;
return the stored summary when it is truthy (a nonempty string); otherwise
generate one through QAService.generate_summary, store it and return it.  The
result carries the response pair, the database afterwards, and whether the
generator ran. -/
def get_document_summary (env : QAEnv) (db : DocsDb) (documentId : String) :
    Except Nat ((String × String) × DocsDb × Bool) :=
  match dbLookup db documentId with
  | none => .error 404
  | some doc =>
      if doc.summary ≠ "" then
        .ok ((documentId, doc.summary), db, false)
      else
        let s := qa_generate_summary env documentId
        .ok ((documentId, s), dbSet db documentId { doc with summary := s }, true)

/-! ## Upload batch (documents.py:68-188) -/

/-- os.path.splitext extension: the suffix of the filename starting at the
last dot, except that dots with nothing but dots before them head a hidden
file and yield no extension.  The accumulator holds the best candidate seen
so far; seen records whether a non-dot character has occurred. -/
def splitextAux : List Char → Bool → Option (List Char) → Option (List Char)
  | [], _, acc => acc
  | c :: rest, seen, acc =>
      if c = '.' then
        if seen then splitextAux rest seen (some (c :: rest))
        else splitextAux rest seen acc
      else splitextAux rest true acc

/-- os.path.splitext(filename)[1].lower() as computed at documents.py:84. -/
def splitextExtLower (filename : String) : String :=
  ⟨((splitextAux filename.data false none).getD []).map Char.toLower⟩

/-- The extension allow-list at documents.py:85. -/
def supportedExt (filename : String) : Bool :=
  splitextExtLower filename = ".pdf" || splitextExtLower filename = ".csv"

/-- What the processing pipeline (save to storage, then
document_processor.process_file) does with one uploaded file's bytes:
extraction succeeds with a uuid4 document id, metadata and splitter output,
or raises with a message.  File contents live outside the embedding, so the
outcome is carried by the file value itself. -/
inductive ProcessOutcome where
  | ok (documentId : String) (meta : DocMeta) (chunkTexts : List String)
  | err (msg : String)
deriving DecidableEq, Repr

/-- One element of the files argument of upload_documents. -/
structure PyUploadFile where
  filename : String
  outcome : ProcessOutcome
deriving DecidableEq, Repr

/-- One entry of failed_uploads (documents.py:86-89 and 167-171). -/
structure FailedUpload where
  filename : String
  reason : String
deriving DecidableEq, Repr

/-- One entry of the documents list of the response (documents.py:144-153). -/
structure DocResponse where
  id : String
  filename : String
  type : String
  summary : String
  status : String
deriving DecidableEq, Repr

/-- The per-file body of the upload loop (documents.py:82-175): unsupported
extensions are rejected with the fixed reason and continue; a processing
failure is caught by the per-file except and recorded with its message; a
success yields a DocumentResponse with status "processing". -/
def uploadStep (f : PyUploadFile) : Except FailedUpload DocResponse :=
  if ¬ supportedExt f.filename then
    .error { filename := f.filename
           , reason := "Unsupported file type. Only PDF and CSV files are supported" }
  else
    match f.outcome with
    | .ok documentId meta _ =>
        .ok { id := documentId
            , filename := f.filename
            , type := meta.dtype
            , summary := summarize_document meta
            , status := "processing" }
    | .err msg =>
        .error { filename := f.filename
               , reason := "Error processing document: " ++ msg }

/-- The loop of upload_documents, accumulating processed_documents and
failed_uploads in file order. -/
def uploadLoop : List PyUploadFile → List DocResponse × List FailedUpload
  | [] => ([], [])
  | f :: rest =>
      let (ds, fs) := uploadLoop rest
      match uploadStep f with
      | .ok d => (d :: ds, fs)
      | .error e => (ds, e :: fs)

/-- Response shape of POST /api/documents/upload. -/
structure DocumentListUploadResponse where
  documents : List DocResponse
  failed_uploads : List FailedUpload
deriving DecidableEq, Repr

/-- upload_documents (documents.py:68-188): 400 when no files were sent, the
loop over files, and the final 400 when every file failed
(documents.py:177-183); otherwise the combined response. -/
def upload_documents (files : List PyUploadFile) :
    Except (Nat × String) DocumentListUploadResponse :=
  if files.isEmpty then .error (400, "No files uploaded")
  else
    let (ds, fs) := uploadLoop files
    if ds.isEmpty && !fs.isEmpty then .error (400, "All uploads failed")
    else .ok { documents := ds, failed_uploads := fs }

/-- Per-file view of the successes, for stating batch isolation. -/
def uploadOkOf (f : PyUploadFile) : Option DocResponse :=
  match uploadStep f with
  | .ok d => some d
  | .error _ => none

/-- Per-file view of the failures, for stating batch isolation. -/
def uploadErrOf (f : PyUploadFile) : Option FailedUpload :=
  match uploadStep f with
  | .ok _ => none
  | .error e => some e

/-! ## upload_chunks (azure_search.py:129-176) -/

/-- Field names of the search index schema (SchemaConfig defaults,
azure_search.py:22-45). -/
structure SchemaConfig where
  id_field : String := "id"
  content_field : String := "content"
  metadata_field : String := "metadata"
deriving DecidableEq, Repr

/-- One document as handed to search_client.upload_documents
(azure_search.py:155-162); the four dict values keyed by the configured field
names, with the embedding computed from the content. -/
structure SearchDoc where
  id : String
  content : String
  content_vector : List Int
  metadata : String
deriving DecidableEq, Repr

/-- Content lookup at azure_search.py:137-144: the literal key "text" first,
then the configured content field; a chunk with neither is skipped with a
logged warning. -/
def chunkContent (cfg : SchemaConfig) (chunk : List (String × String)) : Option String :=
  match chunk.lookup "text" with
  | some t => some t
  | none => chunk.lookup cfg.content_field

/-- Id lookup at azure_search.py:150: chunk.get returns the stored value —
even a falsy one — whenever the key is present, falling back to the
configured id field only when "id" is absent. -/
def chunkId (cfg : SchemaConfig) (chunk : List (String × String)) : Option String :=
  match chunk.lookup "id" with
  | some v => some v
  | none => chunk.lookup cfg.id_field

/-- Metadata value at azure_search.py:159-161; json.dumps of a metadata value
already carried as its serialized string (serialization itself lives outside
the embedding), defaulting to the empty object. -/
def chunkMetadataJson (cfg : SchemaConfig) (chunk : List (String × String)) : String :=
  match chunk.lookup "metadata" with
  | some m => m
  | none => (chunk.lookup cfg.metadata_field).getD "\x7b\x7d"

/-- AzureSearchService.upload_chunks (azure_search.py:129-176).  The value is
the sequence of documents reaching search_client.upload_documents (the loop
at azure_search.py:167-169 sends exactly this sequence in slices of 100); the
Python function itself returns None, reporting nothing about skipped chunks.
A chunk without content is skipped at azure_search.py:143-144; one whose
looked-up id is missing or falsy (if not chunk_id) is skipped at
azure_search.py:151-153, after its embedding was already computed. -/
def upload_chunks (cfg : SchemaConfig) (embed : String → List Int)
    (chunks : List (List (String × String))) : Except String (List SearchDoc) :=
  .ok (chunks.filterMap fun chunk =>
    match chunkContent cfg chunk with
    | none => none
    | some content =>
        match chunkId cfg chunk with
        | none => none
        | some cid =>
            if cid = "" then none
            else some { id := cid
                      , content := content
                      , content_vector := embed content
                      , metadata := chunkMetadataJson cfg chunk })

/-- Modelled from the claim as amended (C10): a chunk is kept exactly when it
has content under "text" or the configured content field AND its id lookup
yields a nonempty string. -/
def validChunk (cfg : SchemaConfig) (chunk : List (String × String)) : Bool :=
  (chunkContent cfg chunk).isSome &&
    (match chunkId cfg chunk with
     | some cid => cid ≠ ""
     | none => false)

/-- The uploaded document built from a chunk that passed both checks. -/
def mkSearchDoc (cfg : SchemaConfig) (embed : String → List Int)
    (chunk : List (String × String)) : SearchDoc :=
  { id := (chunkId cfg chunk).getD ""
  , content := (chunkContent cfg chunk).getD ""
  , content_vector := embed ((chunkContent cfg chunk).getD "")
  , metadata := chunkMetadataJson cfg chunk }

/-! ## Concrete fixtures used by the closed statements below -/

def doc1 : RetrievedDoc :=
  { page_content := "alpha facts", metadata := [("source", "a.pdf"), ("document_id", "doc-1")] }

def doc2 : RetrievedDoc :=
  { page_content := "beta facts", metadata := [("source", "b.pdf"), ("document_id", "doc-1")] }

def doc3 : RetrievedDoc :=
  { page_content := "gamma facts", metadata := [("source", "c.pdf"), ("document_id", "doc-1")] }

def doc4 : RetrievedDoc :=
  { page_content := "delta facts", metadata := [("source", "d.pdf"), ("document_id", "doc-1")] }

def docs4 : List RetrievedDoc := [doc1, doc2, doc3, doc4]

/-- An environment over an index with no chunks at all. -/
def envEmpty : QAEnv := { search := fun _ _ => [], llm := fun _ => "model answer" }

/-- An environment whose index holds one chunk belonging to document doc-2 —
the chunk an unfiltered similarity search returns regardless of the asked-for
document. -/
def envLeaky : QAEnv :=
  { search := fun _ _ =>
      [{ page_content := "other document text"
       , metadata := [("source", "other.pdf"), ("document_id", "doc-2")] }]
  , llm := fun _ => "model answer" }

/-- documents_db holding one freshly uploaded PDF. -/
def db1 : DocsDb :=
  [("doc-1", mkUploadRecord "doc-1" "report.pdf" (DocMeta.pdf 3 "Untitled" "Unknown"))]

/-- documents_db holding one freshly uploaded CSV. -/
def dbCsv : DocsDb :=
  [("doc-9", mkUploadRecord "doc-9" "data.csv" (DocMeta.csv 2 ["a", "b"]))]

/-- A mixed upload batch: two processable files, one unsupported extension,
one supported file whose extraction raises. -/
def mixedBatch : List PyUploadFile :=
  [ { filename := "a.pdf", outcome := .ok "id-a" (DocMeta.pdf 2 "Untitled" "Unknown") ["t1", "t2"] }
  , { filename := "notes.docx", outcome := .ok "id-b" (DocMeta.pdf 1 "Untitled" "Unknown") ["x"] }
  , { filename := "broken.csv", outcome := .err "Error processing CSV: bad row" }
  , { filename := "b.csv", outcome := .ok "id-c" (DocMeta.csv 5 ["c1", "c2"]) ["y"] } ]

/-- A deterministic stand-in embedding model for evaluated statements. -/
def embedLen : String → List Int := fun s => [Int.ofNat s.length]

def defaultSchema : SchemaConfig := {}

/-- A chunk dict carrying text and an id key whose value is the empty string. -/
def emptyIdChunk : List (String × String) := [("text", "hello"), ("id", "")]

/-! ## Helper lemmas -/

/-- The accumulator of String.intercalate.go factors out on the left. -/
theorem intercalate_go_acc (s : String) : ∀ (l : List String) (acc t : String),
    String.intercalate.go (acc ++ t) s l = acc ++ String.intercalate.go t s l := by
  intro l
  induction l with
  | nil => intro acc t; simp [String.intercalate.go]
  | cons a as ih =>
      intro acc t
      simp only [String.intercalate.go]
      rw [String.append_assoc, String.append_assoc, ← String.append_assoc t s a]
      exact ih acc (t ++ s ++ a)

/-- Unfolding String.intercalate over a two-or-more element list. -/
theorem intercalate_cons₂ (s a b : String) (l : List String) :
    String.intercalate s (a :: b :: l) = a ++ s ++ String.intercalate s (b :: l) := by
  simp only [String.intercalate, String.intercalate.go]
  exact intercalate_go_acc s l (a ++ s) b

/-- Appends of equal-length strings are left-injective. -/
theorem string_append_inj {a b c d : String} (h : a ++ b = c ++ d)
    (hl : a.length = c.length) : a = c := by
  have hd : a.data ++ b.data = c.data ++ d.data := by
    rw [← String.data_append, ← String.data_append, h]
  exact String.ext (List.append_inj hd hl).1

/-! ## C6: the context builder -/

/-- C6 (counterexample): on a four-result retrieval the context builder keeps
all four rendered blocks, so its output agrees with no top-n truncation for
any n ≤ 3 — the claimed bound of at most three rendered results is violated. -/
theorem create_context_counterexample :
    (decide (create_context docs4 = contextSpecTopN 0 docs4) ||
       decide (create_context docs4 = contextSpecTopN 1 docs4) ||
       decide (create_context docs4 = contextSpecTopN 2 docs4) ||
       decide (create_context docs4 = contextSpecTopN 3 docs4)) = false := by
  decide

/-- C6 (amended): create_context returns the literal sentinel
"No relevant documents found." on an empty result sequence, and otherwise the
concatenation of ALL results in retrieval order — each rendered as
"Document: source newline Content: text" and joined by blank lines — with no
truncation to a top-3. -/
theorem create_context_eq_spec (docs : List RetrievedDoc) :
    create_context docs = contextSpecAll docs := by
  induction docs with
  | nil => rfl
  | cons d rest ih =>
      cases rest with
      | nil => rfl
      | cons d2 rest2 =>
          simp only [create_context, List.isEmpty, List.map, if_neg] at ih ⊢
          rw [intercalate_cons₂, contextSpecAll, ← ih]
          simp

/-! ## C1: document-scoped retrieval filter -/

/-- C1: the document-scoped ask never applies a document filter.  Evaluated
at a concrete question against doc-1 in an environment whose unfiltered
similarity search surfaces a chunk of doc-2: the call does not return
filtered sources — it fails with the TypeError raised because
create_langchain_retriever declares no document_id parameter (and builds no
filter), so the claimed scoping contract is unimplemented. -/
theorem answer_document_question_no_filter :
    (envLeaky.search "What does the report say?" 4).map
        (fun d => metaGet d.metadata "document_id" "") = ["doc-2"] ∧
      answer_document_question envLeaky "What does the report say?" "doc-1" =
        .error unexpectedKwargMsg := by
  constructor
  · rfl
  · rfl

/-! ## C2: zero-chunk short-circuit -/

/-- C2: asked about a document with zero indexed chunks, the document-scoped
ask does not return the fixed no-content answer with empty sources: it raises
(the same TypeError, before any retrieval), so no .ok result — fixed answer
or otherwise — is ever produced, and the body contains no zero-chunk
short-circuit to reach either. -/
theorem answer_document_question_zero_chunks :
    envEmpty.search "q" 4 = [] ∧
      answer_document_question envEmpty "q" "doc-404" = .error unexpectedKwargMsg ∧
      (answer_document_question envEmpty "q" "doc-404").isOk = false := by
  exact ⟨rfl, rfl, rfl⟩

/-! ## C3: empty-question rejection -/

/-- C3: a whitespace-only question is rejected before any retrieval call, but
the HTTPException(400) raised inside the try block is caught by the blanket
except clause and re-raised as HTTP 500 wrapping str(e) — the client sees a
500, not a 400. -/
theorem ask_question_whitespace_rejected_500 :
    ask_question_route envEmpty "   " =
        { status := 500
        , body := "Error answering question: 400: Question cannot be empty"
        , retrievalPerformed := false } ∧
      (ask_question_route envEmpty "   ").status = 500 := by
  exact ⟨rfl, rfl⟩

/-! ## C4: document status lifecycle -/

/-- C4: the uploaded record starts in status "processing", but after the
background task runs over a SUCCESSFUL chunk upload the status is "error"
with the await-TypeError message, never "ready": update_document_status
awaits the None returned by the synchronous upload_chunks, so its try block
always raises even when the upload itself succeeded. -/
theorem update_document_status_never_ready :
    (dbLookup db1 "doc-1").map DocRecord.status = some "processing" ∧
      (dbLookup (update_document_status db1 "doc-1" (.ok ())) "doc-1").map
          DocRecord.status = some "error" ∧
      (dbLookup (update_document_status db1 "doc-1" (.ok ())) "doc-1").map
          DocRecord.error_message = some (some awaitNoneMsg) := by
  refine ⟨rfl, rfl, rfl⟩

/-! ## C5: per-file isolation of the upload batch -/

/-- The upload loop is a pair of per-file filterMaps: each file's fate depends
only on that file. -/
theorem uploadLoop_eq_filterMap (files : List PyUploadFile) :
    uploadLoop files = (files.filterMap uploadOkOf, files.filterMap uploadErrOf) := by
  induction files with
  | nil => rfl
  | cons f rest ih =>
      simp only [uploadLoop, ih, List.filterMap_cons, uploadOkOf, uploadErrOf]
      cases uploadStep f <;> rfl

/-- C5: in any batch where at least one file processes successfully, the
response succeeds and partitions the batch per file: documents are exactly
the per-file successes in order and failed_uploads exactly the per-file
rejections (unsupported extension or caught processing error) in order — so
a bad file contributes one failed_uploads entry and never affects any other
file's entry. -/
theorem upload_documents_per_file (files : List PyUploadFile)
    (h : ∃ f ∈ files, (uploadOkOf f).isSome) :
    upload_documents files =
      .ok { documents := files.filterMap uploadOkOf
          , failed_uploads := files.filterMap uploadErrOf } := by
  obtain ⟨f, hf, hok⟩ := h
  obtain ⟨d, hd⟩ := Option.isSome_iff_exists.1 hok
  have hmem : d ∈ files.filterMap uploadOkOf :=
    List.mem_filterMap.2 ⟨f, hf, hd⟩
  have hfe : files.isEmpty = false := by
    cases files with
    | nil => cases hf
    | cons a l => rfl
  unfold upload_documents
  rw [hfe]
  simp only [Bool.false_eq_true, if_false, uploadLoop_eq_filterMap]
  have hde : (files.filterMap uploadOkOf).isEmpty = false := by
    cases he : files.filterMap uploadOkOf with
    | nil => rw [he] at hmem; cases hmem
    | cons a l => rfl
  rw [hde]
  rfl

/-- C5 witness: the mixed four-file batch evaluates to two processed
documents and two failed_uploads entries, via the theorem. -/
theorem upload_documents_per_file_witness :
    upload_documents mixedBatch =
      .ok { documents :=
              [ { id := "id-a", filename := "a.pdf", type := "pdf"
                , summary := "This is a 2-page PDF document.", status := "processing" }
              , { id := "id-c", filename := "b.csv", type := "csv"
                , summary := "This is a CSV file with 5 rows and 2 columns: c1, c2."
                , status := "processing" } ]
          , failed_uploads :=
              [ { filename := "notes.docx"
                , reason := "Unsupported file type. Only PDF and CSV files are supported" }
              , { filename := "broken.csv"
                , reason := "Error processing document: Error processing CSV: bad row" } ] } := by
  rw [upload_documents_per_file mixedBatch (by decide)]
  rfl

/-! ## C7: overlap validation -/

/-- C7 (counterexample): with overlap equal to chunk_size — an instance of
overlap ≥ chunk_size — construction succeeds and no configuration error is
raised: the underlying splitter's check is strictly greater-than, and the
repository code adds no validation of its own. -/
theorem documentProcessorInit_equal_accepted :
    documentProcessorInit 1000 1000 =
        .ok { chunk_size := 1000, chunk_overlap := 1000 } ∧
      1000 ≥ 1000 := by
  exact ⟨rfl, le_refl 1000⟩

/-- C7 (amended): for every configuration with overlap STRICTLY GREATER than
chunk_size, constructing the chunker raises the splitter's ValueError before
any chunking attempt; overlap equal to chunk_size is accepted. -/
theorem documentProcessorInit_gt_errors (chunk_size chunk_overlap : Nat)
    (h : chunk_overlap > chunk_size) :
    documentProcessorInit chunk_size chunk_overlap =
      .error ("Got a larger chunk overlap (" ++ Nat.repr chunk_overlap ++
        ") than chunk size (" ++ Nat.repr chunk_size ++ "), should be smaller.") := by
  unfold documentProcessorInit textSplitterInit
  rw [if_pos h]

/-- C7 witness: the amended theorem evaluated at chunk_size 1000, overlap
1200. -/
theorem documentProcessorInit_gt_errors_witness :
    1200 > 1000 ∧
      documentProcessorInit 1000 1200 =
        .error "Got a larger chunk overlap (1200) than chunk size (1000), should be smaller." := by
  refine ⟨by decide, ?_⟩
  rw [documentProcessorInit_gt_errors 1000 1200 (by decide)]
  rfl

/-! ## C8: chunk id format, contiguity and cross-document uniqueness -/

/-- C8: (i) the chunk at output position i carries id
"{document_id}_chunk_{i}" and chunk_index i — indices are contiguous from 0
in output order; (ii) chunks of two documents with distinct ids of equal
length (uuid4 strings are 36 characters) never share a chunk id. -/
theorem mkChunks_id_invariant
    (d1 s1 t1 : String) (texts1 : List String)
    (d2 s2 t2 : String) (texts2 : List String)
    (hlen : d1.length = d2.length) (hne : d1 ≠ d2) :
    (∀ i c, (mkChunks d1 s1 t1 texts1)[i]? = some c →
        c.id = d1 ++ "_chunk_" ++ Nat.repr i ∧ c.metadata.chunk_index = i) ∧
      ∀ c1 ∈ mkChunks d1 s1 t1 texts1, ∀ c2 ∈ mkChunks d2 s2 t2 texts2,
        c1.id ≠ c2.id := by
  constructor
  · intro i c hc
    simp only [mkChunks, List.getElem?_map, List.getElem?_enum] at hc
    cases ht : texts1[i]? with
    | none => rw [ht] at hc; cases hc
    | some t =>
        rw [ht] at hc
        cases hc
        exact ⟨rfl, rfl⟩
  · intro c1 hc1 c2 hc2 heq
    simp only [mkChunks, List.mem_map] at hc1 hc2
    obtain ⟨⟨i, x⟩, _, hc1e⟩ := hc1
    obtain ⟨⟨j, y⟩, _, hc2e⟩ := hc2
    have h1 : c1.id = d1 ++ "_chunk_" ++ Nat.repr i := by rw [← hc1e]; rfl
    have h2 : c2.id = d2 ++ "_chunk_" ++ Nat.repr j := by rw [← hc2e]; rfl
    rw [h1, h2] at heq
    have hpre : d1 ++ "_chunk_" = d2 ++ "_chunk_" :=
      string_append_inj heq (by simp [String.length_append, hlen])
    exact hne (string_append_inj (b := "_chunk_") (d := "_chunk_")
      (by rw [hpre]) hlen)

/-- C8 witness: the invariant evaluated for two concrete documents with
distinct ids of equal length and two chunk lists. -/
theorem mkChunks_id_invariant_witness :
    ("doc-1111" : String).length = ("doc-2222" : String).length ∧
      ("doc-1111" : String) ≠ "doc-2222" ∧
      ((∀ i c, (mkChunks "doc-1111" "a.pdf" "pdf" ["t0", "t1"])[i]? = some c →
          c.id = "doc-1111" ++ "_chunk_" ++ Nat.repr i ∧ c.metadata.chunk_index = i) ∧
        ∀ c1 ∈ mkChunks "doc-1111" "a.pdf" "pdf" ["t0", "t1"],
          ∀ c2 ∈ mkChunks "doc-2222" "b.csv" "csv" ["u0"], c1.id ≠ c2.id) := by
  refine ⟨by decide, by decide, ?_⟩
  exact mkChunks_id_invariant "doc-1111" "a.pdf" "pdf" ["t0", "t1"]
    "doc-2222" "b.csv" "csv" ["u0"] (by decide) (by decide)

/-! ## C9: summary caching idempotence -/

/-- Looking up the key just written by a dict assignment yields the new
record. -/
theorem dbLookup_dbSet_self (db : DocsDb) (k : String) (r : DocRecord) :
    dbLookup (dbSet db k r) k = some r := by
  induction db with
  | nil => simp [dbSet, dbLookup]
  | cons p rest ih =>
      obtain ⟨k', r'⟩ := p
      by_cases h : k' = k
      · simp [dbSet, dbLookup, h]
      · simp [dbSet, dbLookup, h, ih]

/-- QAService.generate_summary always returns its fixed fallback string: the
retriever construction raises TypeError (document_id keyword) and the method
catches it. -/
theorem qa_generate_summary_eq_fallback (env : QAEnv) (d : String) :
    qa_generate_summary env d = "Could not generate summary due to an error." := rfl

/-- C9: the summarize operation is idempotent per document: whatever a first
successful summarize call returned (its response pair, resulting database and
generator flag), a second call for the same id returns the same pair, leaves
the database exactly as it was, and does not invoke the generator.  Records
written by upload always carry a nonempty placeholder summary, so the cached
branch is taken from the first call onwards. -/
theorem get_document_summary_idempotent (env : QAEnv) (db : DocsDb) (d : String)
    (p : String × String) (db₁ : DocsDb) (g : Bool)
    (h : get_document_summary env db d = .ok (p, db₁, g)) :
    get_document_summary env db₁ d = .ok (p, db₁, false) := by
  cases hd : dbLookup db d with
  | none => simp [get_document_summary, hd] at h
  | some doc =>
      by_cases hs : doc.summary = ""
      · simp only [get_document_summary, hd, hs, ne_eq, not_true_eq_false,
          if_false, Except.ok.injEq, Prod.mk.injEq] at h
        obtain ⟨hp, hdb, hg⟩ := h
        subst hp hdb
        simp only [get_document_summary, dbLookup_dbSet_self,
          qa_generate_summary_eq_fallback]
        rfl
      · simp only [get_document_summary, hd, hs, ne_eq, not_false_eq_true,
          if_true, Except.ok.injEq, Prod.mk.injEq] at h
        obtain ⟨hp, hdb, hg⟩ := h
        subst hp hdb
        simp [get_document_summary, hd, hs]

/-- C9 witness: on a database holding one uploaded CSV document, the theorem
applied to the first call's (evaluated) result shows the second call returns
the cached summary, leaves the record untouched and skips the generator. -/
theorem get_document_summary_idempotent_witness :
    get_document_summary envEmpty dbCsv "doc-9" =
      .ok (("doc-9", "This is a CSV file with 2 rows and 2 columns: a, b."),
        dbCsv, false) :=
  get_document_summary_idempotent envEmpty dbCsv "doc-9"
    ("doc-9", "This is a CSV file with 2 rows and 2 columns: a, b.") dbCsv false rfl

/-! ## C10: silent dropping in upload_chunks -/

/-- C10 (counterexample): a chunk that HAS both a text key and an id key —
merely with an empty-string id value — is also dropped silently: Python's
`if not chunk_id` treats the present-but-falsy id like a missing one, so the
claim's drop condition (lacking content or lacking an id) is incomplete. -/
theorem upload_chunks_counterexample :
    upload_chunks defaultSchema embedLen [emptyIdChunk] = .ok [] ∧
      (emptyIdChunk.lookup "id").isSome = true ∧
      (emptyIdChunk.lookup "text").isSome = true := by
  exact ⟨rfl, by decide, by decide⟩

/-- C10 (amended): upload_chunks never raises and reports nothing about
dropped chunks; a chunk is dropped exactly when it lacks content (no "text"
key and no configured content field) or its id lookup yields no value or an
empty (falsy) one, and every remaining chunk is embedded and uploaded, in
order. -/
theorem upload_chunks_eq_valid_filter (cfg : SchemaConfig)
    (embed : String → List Int) (chunks : List (List (String × String))) :
    upload_chunks cfg embed chunks =
      .ok ((chunks.filter (validChunk cfg)).map (mkSearchDoc cfg embed)) := by
  unfold upload_chunks
  congr 1
  induction chunks with
  | nil => rfl
  | cons c rest ih =>
      simp only [List.filterMap_cons, List.filter_cons]
      cases hc : chunkContent cfg c with
      | none => simpa [validChunk, hc] using ih
      | some content =>
          cases hid : chunkId cfg c with
          | none => simpa [validChunk, hc, hid] using ih
          | some cid =>
              by_cases hcid : cid = ""
              · simpa [validChunk, hc, hid, hcid] using ih
              · simp [validChunk, hc, hid, hcid, mkSearchDoc, ih]

end PdfQA
